import Mathlib

/-
Verification development for the worker_server repository.

The repository has two Python source files:
  - model_downloader.py : class ModelDownloader with _create_s3_client,
    download_file, list_bucket_contents, download_model, and the module-level
    convenience function download_model_from_s3;
  - main.py : CONFIG (environment-backed configuration), initialize_worker,
    and handler (the per-job callback).

This file gives a shallow embedding of that code.  Effects are made explicit:
  - the S3 service is a value of type S3Client: a map from continuation tokens
    to listing responses, a per-key transfer-success oracle, and a per-key
    stored object size (written to disk on a successful transfer);
  - the local filesystem is a map from path to optional file size;
  - Python exceptions that can cross a function boundary are an explicit
    Except layer (PyErr);
  - the unbounded while-loop of list_bucket_contents is given fuel; a run that
    would need more provider responses than the fuel supplies is the outer
    Option none ("not modelled"), never a wrong answer;
  - wall-clock time and the byte length of the serialized JSON manifest are
    parameters (now, jsonSize).
-/

namespace WorkerServer

/-- A remote object as reported by list_objects_v2: a Key and a Size. -/
structure S3Object where
  key : String
  size : Nat
deriving DecidableEq

/-- One response page of list_objects_v2: the Contents entries (empty when the
response carries no Contents field), the IsTruncated flag (false when absent),
and the NextContinuationToken (none when absent). -/
structure ListPage where
  contents : List S3Object
  isTruncated : Bool
  nextToken : Option String
deriving DecidableEq

/-- Python exceptions that cross a function boundary in this code base. -/
inductive PyErr where
  | attributeError
  | keyError (k : String)
deriving DecidableEq

/-- The S3 service as seen by one client.  pages maps a continuation token
(none for the initial request) to the provider response: none when the model
does not specify a response for that token, some (Except.error ()) when the
request raises ClientError, some (Except.ok page) for a normal page.  dlOk k
tells whether the head-object plus transfer of download_file succeeds for key
k, and contentSize k is the size of the file a successful transfer writes. -/
structure S3Client where
  pages : Option String → Option (Except Unit ListPage)
  dlOk : String → Bool
  contentSize : String → Nat

/-- The local filesystem: a map from absolute path to the size of the file
stored there, none when no file exists at that path. -/
abbrev FS := String → Option Nat

/-- The filesystem after writing a file of size sz at path p. -/
def fsUpdate (fs : FS) (p : String) (sz : Nat) : FS :=
  fun q => if q = p then some sz else fs q

/-- The empty filesystem. -/
def emptyFS : FS := fun _ => none

/-- Truthiness of an optional environment-variable value, as used by
"if not access_key or not secret_key": absent and empty are both falsy. -/
def truthy : Option String → Bool
  | none => false
  | some s => !s.isEmpty

/-- ModelDownloader._create_s3_client: when either credential variable is
missing or empty it logs a warning and returns None; otherwise it returns the
configured boto3 client (the behaviour of that client is the tmpl value). -/
def createS3Client (accessKey secretKey : Option String) (tmpl : S3Client) :
    Option S3Client :=
  if truthy accessKey && truthy secretKey then some tmpl else none

/-- The state of a ModelDownloader instance after __init__: the constructor
arguments, the client returned by _create_s3_client (possibly none), and the
fixed local root self.model_path. -/
structure ModelDownloader where
  bucket_name : String
  endpoint_url : String
  region : String
  s3 : Option S3Client
  model_path : String

/-- ModelDownloader.__init__ with credentials read from the environment. -/
structure Env where
  AWS_ACCESS_KEY_ID : Option String
  AWS_SECRET_ACCESS_KEY : Option String

/-- Build a ModelDownloader exactly as __init__ does: store the arguments,
call _create_s3_client, and fix model_path to the string slash-model. -/
def mkModelDownloader (bucket endpoint region : String) (env : Env)
    (tmpl : S3Client) : ModelDownloader :=
  { bucket_name := bucket
    endpoint_url := endpoint
    region := region
    s3 := createS3Client env.AWS_ACCESS_KEY_ID env.AWS_SECRET_ACCESS_KEY tmpl
    model_path := "/model" }

/-- Does the second character list begin with the first one? -/
def charsLead : List Char → List Char → Bool
  | [], _ => true
  | _ :: _, [] => false
  | a :: as, b :: bs => if a = b then charsLead as bs else false

/-- str.startswith(pat), computed on the underlying character lists. -/
def strStartsWith (s pat : String) : Bool := charsLead pat.data s.data

/-- str.endswith(pat), computed on the underlying character lists. -/
def strEndsWith (s pat : String) : Bool :=
  charsLead pat.data.reverse s.data.reverse

/-- os.path.join for POSIX paths with two components: an absolute second
component replaces the first; otherwise the components are joined with a
separator unless the first already ends with one or is empty. -/
def osPathJoin (a b : String) : String :=
  if strStartsWith b "/" then b
  else if a = "" || strEndsWith a "/" then a ++ b
  else a ++ "/" ++ b

/-- The local destination path download_model derives for a remote object:
os.path.join(self.model_path, obj[Key]). -/
def objPath (mp : String) (o : S3Object) : String := osPathJoin mp o.key

/-- The while-loop of list_bucket_contents.  Each iteration issues
list_objects_v2 with the current continuation token.  A ClientError is caught
by the surrounding handler, which makes the whole function return the empty
list.  Otherwise the Contents entries are appended to the accumulator; when
IsTruncated is falsy the loop breaks and the accumulator is returned, else the
loop continues with the NextContinuationToken.  Fuel bounds the number of
provider requests; exhausted fuel or an unspecified provider response is the
outer none. -/
def listLoop (c : S3Client) : Nat → Option String → List S3Object →
    Option (List S3Object)
  | 0, _, _ => none
  | Nat.succ fuel, tok, acc =>
    match c.pages tok with
    | none => none
    | some (Except.error _) => some []
    | some (Except.ok page) =>
      if page.isTruncated then listLoop c fuel page.nextToken (acc ++ page.contents)
      else some (acc ++ page.contents)

/-- ModelDownloader.list_bucket_contents.  With a real client it runs the
pagination loop (ClientError degrades to the empty list inside the loop and
no exception escapes).  When self.s3 is None, evaluating
self.s3.list_objects_v2 raises AttributeError, and the except-ClientError
handler does not catch it, so the call raises to the caller. -/
def listBucketContents (s3 : Option S3Client) (fuel : Nat) :
    Option (Except PyErr (List S3Object)) :=
  match s3 with
  | none => some (Except.error PyErr.attributeError)
  | some c =>
    match listLoop c fuel none [] with
    | none => none
    | some objs => some (Except.ok objs)

/-- The mutable loop state of download_model: the filesystem, the two
counters, and (as a ghost field for the statements below) the list of keys
for which download_file has been invoked, in order. -/
structure DState where
  fs : FS
  success_count : Nat
  failed_count : Nat
  attempts : List String

/-- The else-branch of the per-object body: download_file is invoked for the
key.  On success the destination file now has the stored object size and the
success counter is bumped; on failure (head-object or transfer error, both
caught inside download_file, which then returns False) the failure counter is
bumped and the filesystem is unchanged (the transfer manager removes a
partial temporary file). -/
def downloadStep (c : S3Client) (st : DState) (o : S3Object) (p : String) :
    DState :=
  if c.dlOk o.key then
    { st with
      fs := fsUpdate st.fs p (c.contentSize o.key)
      success_count := st.success_count + 1
      attempts := st.attempts ++ [o.key] }
  else
    { st with
      failed_count := st.failed_count + 1
      attempts := st.attempts ++ [o.key] }

/-- The body of the for-loop of download_model for one object: when a local
file exists at the derived path with exactly the listed size, the object is
counted successful and skipped; otherwise download_file runs. -/
def processObj (c : S3Client) (mp : String) (st : DState) (o : S3Object) :
    DState :=
  if st.fs (objPath mp o) = some o.size then
    { st with success_count := st.success_count + 1 }
  else downloadStep c st o (objPath mp o)

/-- The metadata record download_model serializes as download_metadata.json. -/
structure Metadata where
  download_time : Nat
  bucket_name : String
  endpoint_url : String
  total_files : Nat
  successful_downloads : Nat
  failed_downloads : Nat
deriving DecidableEq

/-- The observable outcome of one download_model run that returns normally:
the returned boolean, the final filesystem, the manifest written (none when
the run returned before writing one), and the ghost list of keys passed to
download_file. -/
structure SyncOutcome where
  retval : Bool
  fs : FS
  manifest : Option Metadata
  attempts : List String

/-- File name of the manifest download_model writes under the local root. -/
def manifestName : String := "download_metadata.json"

/-- The metadata dictionary built after the loop of download_model. -/
def mkMeta (d : ModelDownloader) (now : Nat) (objs : List S3Object)
    (st : DState) : Metadata :=
  { download_time := now
    bucket_name := d.bucket_name
    endpoint_url := d.endpoint_url
    total_files := objs.length
    successful_downloads := st.success_count
    failed_downloads := st.failed_count }

/-- The non-empty-listing tail of download_model: fold the per-object body
over the listed objects, build the metadata record, write it to
os.path.join(model_path, download_metadata.json), and return whether the
failure counter is zero. -/
def syncOutcome (d : ModelDownloader) (c : S3Client) (now : Nat) (fs0 : FS)
    (jsonSize : Metadata → Nat) (objs : List S3Object) : SyncOutcome :=
  let st := objs.foldl (processObj c d.model_path)
    { fs := fs0, success_count := 0, failed_count := 0, attempts := [] }
  let meta := mkMeta d now objs st
  { retval := st.failed_count == 0
    fs := fsUpdate st.fs (osPathJoin d.model_path manifestName) (jsonSize meta)
    manifest := some meta
    attempts := st.attempts }

/-- ModelDownloader.download_model.  With self.s3 = None the listing raises
AttributeError, which nothing in download_model catches.  Otherwise the
listing runs; an empty result makes the method return False at once, before
the manifest code is reached; a non-empty result is processed object by
object and the manifest is then written unconditionally. -/
def downloadModel (d : ModelDownloader) (fuel now : Nat) (fs0 : FS)
    (jsonSize : Metadata → Nat) : Option (Except PyErr SyncOutcome) :=
  match d.s3 with
  | none => some (Except.error PyErr.attributeError)
  | some c =>
    match listLoop c fuel none [] with
    | none => none
    | some objs =>
      if objs.isEmpty then
        some (Except.ok
          { retval := false, fs := fs0, manifest := none, attempts := [] })
      else some (Except.ok (syncOutcome d c now fs0 jsonSize objs))

/-- The module-level convenience function download_model_from_s3: construct a
ModelDownloader and call download_model on it. -/
def download_model_from_s3 (bucket endpoint region : String) (env : Env)
    (tmpl : S3Client) (fuel now : Nat) (fs0 : FS)
    (jsonSize : Metadata → Nat) : Option (Except PyErr SyncOutcome) :=
  downloadModel (mkModelDownloader bucket endpoint region env tmpl)
    fuel now fs0 jsonSize

/-- Run download_model a second time on the filesystem the first run left
behind; none when the first run did not return normally. -/
def secondRun (d : ModelDownloader) (fuel t1 t2 : Nat) (fs0 : FS)
    (jsonSize : Metadata → Nat) : Option (Except PyErr SyncOutcome) :=
  match downloadModel d fuel t1 fs0 jsonSize with
  | some (Except.ok o) => downloadModel d fuel t2 o.fs jsonSize
  | _ => none

/-- Projection: the manifest of a normally returning run. -/
def outcomeManifest : Option (Except PyErr SyncOutcome) → Option (Option Metadata)
  | some (Except.ok o) => some o.manifest
  | _ => none

/-- Projection: the successful and failed counters of the written manifest. -/
def manifestCounts : Option (Except PyErr SyncOutcome) → Option (Nat × Nat)
  | some (Except.ok o) =>
    match o.manifest with
    | some m => some (m.successful_downloads, m.failed_downloads)
    | none => none
  | _ => none

/-- os.getenv with a default: the default is used only when the variable is
absent; a set-but-empty variable is returned as the empty string. -/
def getenvDefault (env : String → Option String) (k dflt : String) : String :=
  match env k with
  | some v => v
  | none => dflt

/-- The CONFIG dictionary of main.py: three environment-backed entries with
fixed defaults and the constant MODEL_PATH. -/
structure Config where
  S3_BUCKET : String
  S3_ENDPOINT : String
  S3_REGION : String
  MODEL_PATH : String
deriving DecidableEq

/-- CONFIG as built at import time of main.py from the process environment. -/
def mkConfig (env : String → Option String) : Config :=
  { S3_BUCKET := getenvDefault env "S3_BUCKET" "rd0cg4jfje"
    S3_ENDPOINT := getenvDefault env "S3_ENDPOINT" "https://s3api-eu-cz-1.runpod.io"
    S3_REGION := getenvDefault env "S3_REGION" "eu-cz-1"
    MODEL_PATH := "/model" }

/-- Lookup in a job-request mapping.  A job request is modelled as an
association list from keys to the str rendering of their values (the handler
only ever interpolates the value into an f-string, which applies str). -/
def dictLookup : List (String × String) → String → Option String
  | [], _ => none
  | (k, v) :: rest, q => if k = q then some v else dictLookup rest q

/-- Python subscription job[k]: the value when the key is present, otherwise
a raised KeyError k. -/
def getItem (job : List (String × String)) (k : String) :
    Except PyErr String :=
  match dictLookup job k with
  | some v => Except.ok v
  | none => Except.error (PyErr.keyError k)

/-- str(e) for the exceptions of PyErr; str of KeyError(k) is k wrapped in
single quotes. -/
def pyStrOfErr : PyErr → String
  | PyErr.keyError k => "\x27" ++ k ++ "\x27"
  | PyErr.attributeError =>
    "\x27NoneType\x27 object has no attribute \x27list_objects_v2\x27"

/-- main.handler: extract job[\x22input\x22]; on success answer with the
success dictionary naming CONFIG[MODEL_PATH] and the interpolated result
string; any exception in the try block is caught and converted into the
error dictionary carrying str(e).  The return type shows that no exception
leaves the function. -/
def handler (cfg : Config) (job : List (String × String)) :
    List (String × String) :=
  match getItem job "input" with
  | Except.ok v =>
    [("status", "success"), ("model_used", cfg.MODEL_PATH),
     ("result", "Processed input: " ++ v)]
  | Except.error e => [("status", "error"), ("message", pyStrOfErr e)]

/-- Derived view of the loop body: an object makes the run record a failure
exactly when the skip test fails for it and download_file fails for its key.
The predicate reads the filesystem only at the object destination path. -/
def objFails (c : S3Client) (fs : FS) (mp : String) (o : S3Object) : Bool :=
  !(decide (fs (objPath mp o) = some o.size)) && !(c.dlOk o.key)

/-- Derived view of the loop body: the size stored at the destination path of
an object after its iteration, as a function of the size stored there
before. -/
def postFS (c : S3Client) (fs : FS) (mp : String) (o : S3Object) : Option Nat :=
  if fs (objPath mp o) = some o.size then fs (objPath mp o)
  else if c.dlOk o.key then some (c.contentSize o.key) else fs (objPath mp o)

/-- A client whose behaviour is never consulted, for worlds without
credentials. -/
def dummyClient : S3Client :=
  { pages := fun _ => none, dlOk := fun _ => false, contentSize := fun _ => 0 }

/-- A client whose single listing page is empty. -/
def emptyBucketClient : S3Client :=
  { pages := fun t =>
      match t with
      | none => some (Except.ok { contents := [], isTruncated := false, nextToken := none })
      | some _ => none
    dlOk := fun _ => false
    contentSize := fun _ => 0 }

/-- A downloader over the empty bucket. -/
def emptyBucketDownloader : ModelDownloader :=
  { bucket_name := "rd0cg4jfje"
    endpoint_url := "https://s3api-eu-cz-1.runpod.io"
    region := "eu-cz-1"
    s3 := some emptyBucketClient
    model_path := "/model" }

/-- A bucket holding the single one-byte object with key a, whose transfer
always succeeds. -/
def goodClient : S3Client :=
  { pages := fun t =>
      match t with
      | none => some (Except.ok
          { contents := [{ key := "a", size := 1 }], isTruncated := false, nextToken := none })
      | some _ => none
    dlOk := fun _ => true
    contentSize := fun _ => 1 }

/-- A downloader over the single-object bucket. -/
def goodDownloader : ModelDownloader :=
  { bucket_name := "rd0cg4jfje"
    endpoint_url := "https://s3api-eu-cz-1.runpod.io"
    region := "eu-cz-1"
    s3 := some goodClient
    model_path := "/model" }

/-- A bucket with two keys, the relative a/b and the absolute /model/a/b,
both of listed size 5: both resolve to the same local destination path.  The
transfer of a/b always fails, that of /model/a/b succeeds and stores 5
bytes. -/
def collidingClient : S3Client :=
  { pages := fun t =>
      match t with
      | none => some (Except.ok
          { contents := [{ key := "a/b", size := 5 }, { key := "/model/a/b", size := 5 }]
            isTruncated := false
            nextToken := none })
      | some _ => none
    dlOk := fun k => k == "/model/a/b"
    contentSize := fun _ => 5 }

/-- A downloader over the colliding-keys bucket. -/
def collidingDownloader : ModelDownloader :=
  { bucket_name := "rd0cg4jfje"
    endpoint_url := "https://s3api-eu-cz-1.runpod.io"
    region := "eu-cz-1"
    s3 := some collidingClient
    model_path := "/model" }

/-- A client whose first page holds one object and points to a second page
holding another, exercising the continuation token. -/
def twoPageClient : S3Client :=
  { pages := fun t =>
      match t with
      | none => some (Except.ok
          { contents := [{ key := "a", size := 1 }], isTruncated := true, nextToken := some "t1" })
      | some tok =>
        if tok = "t1" then
          some (Except.ok
            { contents := [{ key := "b", size := 2 }], isTruncated := false, nextToken := none })
        else none
    dlOk := fun _ => true
    contentSize := fun _ => 0 }

/-- The first listing page of twoPageClient. -/
def twoPageFirst : ListPage :=
  { contents := [{ key := "a", size := 1 }], isTruncated := true, nextToken := some "t1" }

/-- The second listing page of twoPageClient. -/
def twoPageSecond : ListPage :=
  { contents := [{ key := "b", size := 2 }], isTruncated := false, nextToken := none }

/-- A client whose very first listing request raises ClientError. -/
def failingListClient : S3Client :=
  { pages := fun t =>
      match t with
      | none => some (Except.error ())
      | some _ => none
    dlOk := fun _ => false
    contentSize := fun _ => 0 }

/-- A fixed serialized-manifest length used by the concrete worlds. -/
def constJsonSize : Metadata → Nat := fun _ => 42

/-- The outcome of the first run of goodDownloader at time 5 on the empty
filesystem. -/
def goodRunOne : SyncOutcome :=
  syncOutcome goodDownloader goodClient 5 emptyFS constJsonSize
    [{ key := "a", size := 1 }]

/-- The outcome of the second run of goodDownloader at time 9, started on the
filesystem the first run left behind. -/
def goodRunTwo : SyncOutcome :=
  syncOutcome goodDownloader goodClient 9 goodRunOne.fs constJsonSize
    [{ key := "a", size := 1 }]

/-- A complete pagination trace: from the given token the provider answers
with the listed pages in order, every page but the last truncated and linking
to the next by its continuation token, the last one not truncated. -/
inductive PageChain (c : S3Client) : Option String → List ListPage → Prop
  | last (tok : Option String) (p : ListPage) :
      c.pages tok = some (Except.ok p) → p.isTruncated = false →
      PageChain c tok [p]
  | step (tok : Option String) (p : ListPage) (ps : List ListPage) :
      c.pages tok = some (Except.ok p) → p.isTruncated = true →
      PageChain c p.nextToken ps → PageChain c tok (p :: ps)

/-- A pagination trace that ends in a ClientError: n truncated pages answer
normally and the following request raises ClientError. -/
inductive ErrChain (c : S3Client) : Option String → Nat → Prop
  | here (tok : Option String) :
      c.pages tok = some (Except.error ()) → ErrChain c tok 0
  | step (tok : Option String) (p : ListPage) (n : Nat) :
      c.pages tok = some (Except.ok p) → p.isTruncated = true →
      ErrChain c p.nextToken n → ErrChain c tok (n + 1)

/- Helper lemmas about the per-object body and its fold. -/

/-- Writing at p stores the written size at p. -/
lemma fsUpdate_self (fs : FS) (p : String) (sz : Nat) :
    fsUpdate fs p sz p = some sz := by
  simp [fsUpdate]

/-- Writing at p leaves every other path unchanged. -/
lemma fsUpdate_other (fs : FS) (p q : String) (sz : Nat) (h : q ≠ p) :
    fsUpdate fs p sz q = fs q := by
  simp [fsUpdate, h]

/-- One loop iteration bumps exactly one of the two counters. -/
lemma processObj_counts (c : S3Client) (mp : String) (st : DState)
    (o : S3Object) :
    (processObj c mp st o).success_count + (processObj c mp st o).failed_count
      = st.success_count + st.failed_count + 1 := by
  unfold processObj downloadStep
  by_cases h : st.fs (objPath mp o) = some o.size
  · simp [h]; omega
  · by_cases hd : c.dlOk o.key <;> simp [h, hd] <;> omega

/-- The failure counter after one iteration, phrased through objFails. -/
lemma processObj_failed (c : S3Client) (mp : String) (st : DState)
    (o : S3Object) :
    (processObj c mp st o).failed_count
      = st.failed_count + (if objFails c st.fs mp o then 1 else 0) := by
  unfold processObj downloadStep objFails
  by_cases h : st.fs (objPath mp o) = some o.size
  · simp [h]
  · by_cases hd : c.dlOk o.key <;> simp [h, hd]

/-- One iteration changes the filesystem at most at the destination path of
its object. -/
lemma processObj_fs_other (c : S3Client) (mp : String) (st : DState)
    (o : S3Object) (q : String) (h : q ≠ objPath mp o) :
    (processObj c mp st o).fs q = st.fs q := by
  unfold processObj downloadStep
  by_cases hs : st.fs (objPath mp o) = some o.size
  · simp [hs]
  · by_cases hd : c.dlOk o.key <;> simp [hs, hd, fsUpdate, h]

/-- After its iteration, the destination path of an object stores postFS of
the sizes stored before. -/
lemma processObj_fs_self (c : S3Client) (mp : String) (st : DState)
    (o : S3Object) :
    (processObj c mp st o).fs (objPath mp o) = postFS c st.fs mp o := by
  unfold processObj downloadStep postFS
  by_cases hs : st.fs (objPath mp o) = some o.size
  · simp [hs]
  · by_cases hd : c.dlOk o.key <;> simp [hs, hd, fsUpdate]

/-- objFails reads the filesystem only at the destination path. -/
lemma objFails_congr (c : S3Client) (fs1 fs2 : FS) (mp : String)
    (o : S3Object) (h : fs1 (objPath mp o) = fs2 (objPath mp o)) :
    objFails c fs1 mp o = objFails c fs2 mp o := by
  unfold objFails
  rw [h]

/-- postFS reads the filesystem only at the destination path. -/
lemma postFS_congr (c : S3Client) (fs1 fs2 : FS) (mp : String)
    (o : S3Object) (h : fs1 (objPath mp o) = fs2 (objPath mp o)) :
    postFS c fs1 mp o = postFS c fs2 mp o := by
  unfold postFS
  rw [h]

/-- Stability of the failure verdict: on a filesystem whose value at the
destination path is the post-iteration value, the verdict for the object is
unchanged.  Failed objects stay failed, skipped or downloaded objects stay
successful. -/
lemma objFails_postFS (c : S3Client) (fs fs2 : FS) (mp : String)
    (o : S3Object) (h : fs2 (objPath mp o) = postFS c fs mp o) :
    objFails c fs2 mp o = objFails c fs mp o := by
  unfold objFails
  rw [h]
  unfold postFS
  by_cases hs : fs (objPath mp o) = some o.size
  · simp [hs]
  · by_cases hd : c.dlOk o.key <;> simp [hs, hd]

/-- Filtering with pointwise equal predicates gives equal results. -/
lemma filterCongrMem {α : Type} (p q : α → Bool) :
    ∀ (l : List α), (∀ a ∈ l, p a = q a) → l.filter p = l.filter q := by
  intro l
  induction l with
  | nil => intro _; rfl
  | cons a rest ih =>
    intro h
    simp only [List.filter_cons]
    rw [h a (by simp), ih (fun b hb => h b (by simp [hb]))]

/-- Over any run of the loop, the two counters together grow by exactly the
number of objects processed: every object is processed and tallied once. -/
lemma foldl_counts (c : S3Client) (mp : String) :
    ∀ (objs : List S3Object) (st : DState),
    (objs.foldl (processObj c mp) st).success_count
      + (objs.foldl (processObj c mp) st).failed_count
      = st.success_count + st.failed_count + objs.length := by
  intro objs
  induction objs with
  | nil => intro st; simp
  | cons o rest ih =>
    intro st
    simp only [List.foldl_cons, List.length_cons]
    rw [ih (processObj c mp st o)]
    have h := processObj_counts c mp st o
    omega

/-- The loop leaves every path that is no destination path of a processed
object unchanged. -/
lemma foldl_fs_other (c : S3Client) (mp : String) :
    ∀ (objs : List S3Object) (st : DState) (q : String),
    (∀ o ∈ objs, objPath mp o ≠ q) →
    (objs.foldl (processObj c mp) st).fs q = st.fs q := by
  intro objs
  induction objs with
  | nil => intro st q _; rfl
  | cons o rest ih =>
    intro st q h
    simp only [List.foldl_cons]
    rw [ih (processObj c mp st o) q (fun o2 h2 => h o2 (List.mem_cons_of_mem o h2))]
    exact processObj_fs_other c mp st o q (Ne.symm (h o (List.mem_cons_self o rest)))

/-- When the destination paths are pairwise distinct, the failure counter of
a whole run is the number of objects whose verdict, read on the initial
filesystem, is failure. -/
lemma foldl_failed (c : S3Client) (mp : String) :
    ∀ (objs : List S3Object) (st : DState),
    (objs.map (objPath mp)).Nodup →
    (objs.foldl (processObj c mp) st).failed_count
      = st.failed_count + (objs.filter (fun o => objFails c st.fs mp o)).length := by
  intro objs
  induction objs with
  | nil => intro st _; simp
  | cons o rest ih =>
    intro st hnd
    simp only [List.map_cons, List.nodup_cons] at hnd
    obtain ⟨hnotin, hnd2⟩ := hnd
    simp only [List.foldl_cons, List.filter_cons]
    rw [ih (processObj c mp st o) hnd2]
    have hfilter : rest.filter (fun o2 => objFails c (processObj c mp st o).fs mp o2)
        = rest.filter (fun o2 => objFails c st.fs mp o2) := by
      apply filterCongrMem
      intro o2 h2
      apply objFails_congr
      apply processObj_fs_other
      intro he
      exact hnotin (he ▸ List.mem_map_of_mem (objPath mp) h2)
    rw [hfilter, processObj_failed]
    by_cases hf : objFails c st.fs mp o
    · simp [hf]
      omega
    · simp [hf]

/-- When the destination paths are pairwise distinct, the size stored at the
destination path of a processed object after the whole run is the
post-iteration value of that object, read on the initial filesystem. -/
lemma foldl_fs_mem (c : S3Client) (mp : String) :
    ∀ (objs : List S3Object) (st : DState) (o : S3Object),
    (objs.map (objPath mp)).Nodup → o ∈ objs →
    (objs.foldl (processObj c mp) st).fs (objPath mp o) = postFS c st.fs mp o := by
  intro objs
  induction objs with
  | nil => intro st o _ hm; cases hm
  | cons o0 rest ih =>
    intro st o hnd hm
    simp only [List.map_cons, List.nodup_cons] at hnd
    obtain ⟨hnotin, hnd2⟩ := hnd
    simp only [List.foldl_cons]
    rcases List.mem_cons.mp hm with he | hm2
    · subst he
      have hrest : ∀ o2 ∈ rest, objPath mp o2 ≠ objPath mp o := by
        intro o2 h2 heq
        exact hnotin (heq ▸ List.mem_map_of_mem (objPath mp) h2)
      rw [foldl_fs_other c mp rest (processObj c mp st o) (objPath mp o) hrest]
      exact processObj_fs_self c mp st o
    · rw [ih (processObj c mp st o0) o hnd2 hm2]
      apply postFS_congr
      apply processObj_fs_other
      intro he
      exact hnotin (he ▸ List.mem_map_of_mem (objPath mp) hm2)

/-- Running the pagination loop along a complete trace returns the
accumulator followed by all page contents in order, for any sufficient
fuel. -/
lemma listLoop_chain (c : S3Client) (pages : List ListPage)
    (tok : Option String) (h : PageChain c tok pages) :
    ∀ (fuel : Nat), pages.length ≤ fuel →
    ∀ (acc : List S3Object),
    listLoop c fuel tok acc
      = some (acc ++ (pages.map (fun p => p.contents)).flatten) := by
  induction h with
  | last tok p hp ht =>
    intro fuel hf acc
    cases fuel with
    | zero => simp at hf
    | succ f => simp [listLoop, hp, ht]
  | step tok p ps hp ht hch ih =>
    intro fuel hf acc
    cases fuel with
    | zero => simp at hf
    | succ f =>
      simp only [listLoop, hp, ht, if_true]
      rw [ih f (by simpa using hf) (acc ++ p.contents)]
      simp

/-- Running the pagination loop along a trace that ends in ClientError
returns the empty list (the error is caught, not propagated), for any
sufficient fuel and any accumulator. -/
lemma listLoop_err (c : S3Client) (n : Nat) (tok : Option String)
    (h : ErrChain c tok n) :
    ∀ (fuel : Nat), n < fuel →
    ∀ (acc : List S3Object), listLoop c fuel tok acc = some [] := by
  induction h with
  | here tok hp =>
    intro fuel hf acc
    cases fuel with
    | zero => simp at hf
    | succ f => simp [listLoop, hp]
  | step tok p n hp ht hch ih =>
    intro fuel hf acc
    cases fuel with
    | zero => simp at hf
    | succ f =>
      simp only [listLoop, hp, ht, if_true]
      exact ih f (by omega) (acc ++ p.contents)

/-- Reduction of download_model in the normal, non-empty-listing case. -/
lemma downloadModel_some (d : ModelDownloader) (c : S3Client) (fuel now : Nat)
    (fs0 : FS) (js : Metadata → Nat) (objs : List S3Object)
    (hs3 : d.s3 = some c) (hlist : listLoop c fuel none [] = some objs)
    (hne : objs.isEmpty = false) :
    downloadModel d fuel now fs0 js
      = some (Except.ok (syncOutcome d c now fs0 js objs)) := by
  simp [downloadModel, hs3, hlist, hne]

/- Claim theorems. -/

/-- C1: evaluation of the code at the failing input.  With both credential
environment variables absent, _create_s3_client returns None, and a
subsequent invocation of download_model_from_s3 is not skipped and not
non-fatal: it raises AttributeError to the caller, because
list_bucket_contents evaluates None.list_objects_v2 and its
except-ClientError handler does not catch AttributeError.  The claim says no
exception reaches the caller and a degraded outcome is reported. -/
theorem c1_missing_creds_raises :
    createS3Client none none dummyClient = none ∧
    download_model_from_s3 "rd0cg4jfje" "https://s3api-eu-cz-1.runpod.io"
        "eu-cz-1" { AWS_ACCESS_KEY_ID := none, AWS_SECRET_ACCESS_KEY := none }
        dummyClient 1 0 emptyFS constJsonSize
      = some (Except.error PyErr.attributeError) :=
  ⟨rfl, rfl⟩

/-- C2 fails as stated: on a run whose listing returns zero objects,
download_model returns before the manifest code, so no manifest is
written. -/
theorem c2_cex_empty_listing_no_manifest :
    outcomeManifest (downloadModel emptyBucketDownloader 1 0 emptyFS constJsonSize)
      = some none :=
  rfl

/-- C2 amended: for every run of download_model in which the listing returns
at least one object, the written manifest has total_files equal to the
number of listed objects and successful_downloads plus failed_downloads
equal to total_files; a run whose listing is empty returns failure without
writing a manifest (see the counterexample). -/
theorem c2_manifest_totals (d : ModelDownloader) (c : S3Client)
    (fuel now : Nat) (fs0 : FS) (js : Metadata → Nat) (objs : List S3Object)
    (out : SyncOutcome)
    (hs3 : d.s3 = some c) (hlist : listLoop c fuel none [] = some objs)
    (hne : objs.isEmpty = false)
    (hrun : downloadModel d fuel now fs0 js = some (Except.ok out)) :
    ∃ meta, out.manifest = some meta ∧
      meta.total_files = objs.length ∧
      meta.successful_downloads + meta.failed_downloads = meta.total_files := by
  have e1 := downloadModel_some d c fuel now fs0 js objs hs3 hlist hne
  rw [hrun] at e1
  have hout : out = syncOutcome d c now fs0 js objs := by simpa using e1
  subst hout
  refine ⟨mkMeta d now objs (objs.foldl (processObj c d.model_path) ⟨fs0, 0, 0, []⟩),
    rfl, rfl, ?_⟩
  have hc := foldl_counts c d.model_path objs ⟨fs0, 0, 0, []⟩
  have hc2 : (objs.foldl (processObj c d.model_path) ⟨fs0, 0, 0, []⟩).success_count
      + (objs.foldl (processObj c d.model_path) ⟨fs0, 0, 0, []⟩).failed_count
      = 0 + 0 + objs.length := hc
  show (objs.foldl (processObj c d.model_path) ⟨fs0, 0, 0, []⟩).success_count
      + (objs.foldl (processObj c d.model_path) ⟨fs0, 0, 0, []⟩).failed_count
      = objs.length
  omega

/-- C3: on every run whose listing is non-empty, every listed object is
processed and tallied exactly once (a failed file does not halt the run: the
two counters add up to the full listing length), and the run returns True
exactly when the failure counter is zero. -/
theorem c3_success_iff_no_failures (d : ModelDownloader) (c : S3Client)
    (fuel now : Nat) (fs0 : FS) (js : Metadata → Nat) (objs : List S3Object)
    (out : SyncOutcome)
    (hs3 : d.s3 = some c) (hlist : listLoop c fuel none [] = some objs)
    (hne : objs.isEmpty = false)
    (hrun : downloadModel d fuel now fs0 js = some (Except.ok out)) :
    ∃ meta, out.manifest = some meta ∧
      meta.successful_downloads + meta.failed_downloads = objs.length ∧
      (out.retval = true ↔ meta.failed_downloads = 0) := by
  have e1 := downloadModel_some d c fuel now fs0 js objs hs3 hlist hne
  rw [hrun] at e1
  have hout : out = syncOutcome d c now fs0 js objs := by simpa using e1
  subst hout
  refine ⟨mkMeta d now objs (objs.foldl (processObj c d.model_path) ⟨fs0, 0, 0, []⟩),
    rfl, ?_, ?_⟩
  · have hc2 : (objs.foldl (processObj c d.model_path) ⟨fs0, 0, 0, []⟩).success_count
        + (objs.foldl (processObj c d.model_path) ⟨fs0, 0, 0, []⟩).failed_count
        = 0 + 0 + objs.length := foldl_counts c d.model_path objs ⟨fs0, 0, 0, []⟩
    show (objs.foldl (processObj c d.model_path) ⟨fs0, 0, 0, []⟩).success_count
        + (objs.foldl (processObj c d.model_path) ⟨fs0, 0, 0, []⟩).failed_count
        = objs.length
    omega
  · show ((objs.foldl (processObj c d.model_path) ⟨fs0, 0, 0, []⟩).failed_count == 0) = true
        ↔ (objs.foldl (processObj c d.model_path) ⟨fs0, 0, 0, []⟩).failed_count = 0
    exact beq_iff_eq

/-- C4: when the listing returns zero objects, download_model returns False
(overall failure), writes no manifest, leaves the filesystem untouched, and
invokes download_file for no key at all. -/
theorem c4_empty_listing_fails_without_downloads (d : ModelDownloader)
    (c : S3Client) (fuel now : Nat) (fs0 : FS) (js : Metadata → Nat)
    (hs3 : d.s3 = some c) (hlist : listLoop c fuel none [] = some []) :
    downloadModel d fuel now fs0 js
      = some (Except.ok
          { retval := false, fs := fs0, manifest := none, attempts := [] }) := by
  simp [downloadModel, hs3, hlist]

/-- C5: the per-object body of download_model.  When a local file exists at
the derived destination path with exactly the listed remote size, the
transfer is skipped and the object is counted successful; otherwise
download_file is invoked for the key, and on success it overwrites the
destination with the stored object content (the success counter is bumped),
while on failure only the failure counter is bumped. -/
theorem c5_skip_or_download (c : S3Client) (mp : String) (st : DState)
    (o : S3Object) :
    (st.fs (objPath mp o) = some o.size →
      processObj c mp st o = { st with success_count := st.success_count + 1 }) ∧
    (st.fs (objPath mp o) ≠ some o.size →
      (processObj c mp st o).attempts = st.attempts ++ [o.key] ∧
      (c.dlOk o.key = true →
        processObj c mp st o
          = { st with
              fs := fsUpdate st.fs (objPath mp o) (c.contentSize o.key)
              success_count := st.success_count + 1
              attempts := st.attempts ++ [o.key] }) ∧
      (c.dlOk o.key = false →
        processObj c mp st o
          = { st with
              failed_count := st.failed_count + 1
              attempts := st.attempts ++ [o.key] })) := by
  constructor
  · intro h
    simp [processObj, h]
  · intro h
    refine ⟨?_, ?_, ?_⟩
    · by_cases hd : c.dlOk o.key <;> simp [processObj, downloadStep, h, hd]
    · intro hd
      simp [processObj, downloadStep, h, hd]
    · intro hd
      simp [processObj, downloadStep, h, hd]

/-- C6: list_bucket_contents pages through the listing with the continuation
token until the provider reports IsTruncated false, returning all page
contents in order, and a ClientError at any point in the trace makes it
return the empty list with no exception escaping to the caller. -/
theorem c6_pagination_and_error_to_empty :
    (∀ (c : S3Client) (pages : List ListPage) (fuel : Nat),
      PageChain c none pages → pages.length ≤ fuel →
      listBucketContents (some c) fuel
        = some (Except.ok ((pages.map (fun p => p.contents)).flatten))) ∧
    (∀ (c : S3Client) (n fuel : Nat), ErrChain c none n → n < fuel →
      listBucketContents (some c) fuel = some (Except.ok [])) := by
  constructor
  · intro c pages fuel hch hf
    simp [listBucketContents, listLoop_chain c pages none hch fuel hf []]
  · intro c n fuel hch hf
    simp [listBucketContents, listLoop_err c n none hch fuel hf []]

/-- C7: a job request carrying an input entry is answered with exactly the
success dictionary: status success, the configured model path, and the
result string embedding the input value. -/
theorem c7_handler_success (env : String → Option String)
    (job : List (String × String)) (v : String)
    (h : dictLookup job "input" = some v) :
    handler (mkConfig env) job
      = [("status", "success"), ("model_used", (mkConfig env).MODEL_PATH),
         ("result", "Processed input: " ++ v)] ∧
    (mkConfig env).MODEL_PATH = "/model" := by
  constructor
  · simp [handler, getItem, h]
  · rfl

/-- C8: a job request without an input entry is answered with exactly the
error dictionary whose message is the non-empty str of the caught KeyError;
the total return type of handler shows no exception reaches the caller. -/
theorem c8_handler_missing_input (cfg : Config) (job : List (String × String))
    (h : dictLookup job "input" = none) :
    handler cfg job = [("status", "error"), ("message", "\x27input\x27")] ∧
    ("\x27input\x27" : String) ≠ "" := by
  constructor
  · simp [handler, getItem, h, pyStrOfErr]
  · decide

/-- C10 fails as stated: the key /model/a begins with the path separator and
its destination equals the key itself, yet that destination lies inside the
local root directory, not outside it. -/
theorem c10_cex_absolute_key_inside_root :
    strStartsWith "/model/a" "/" = true ∧
    osPathJoin "/model" "/model/a" = "/model/a" ∧
    strStartsWith "/model/a" "/model/" = true := by
  refine ⟨?_, ?_, ?_⟩ <;> decide

/-- C10 amended: the destination of every key that begins with the path
separator is the key itself; such a destination escapes the local root
whenever the key does not start with the root prefix (witnessed by
/etc/passwd), so not every synced file is placed under the local root, but a
separator-prefixed key that starts with the root prefix still lands inside
the root. -/
theorem c10_join_absolute_key (key : String) (h : strStartsWith key "/" = true) :
    osPathJoin "/model" key = key ∧
    (osPathJoin "/model" "/etc/passwd" = "/etc/passwd" ∧
     strStartsWith "/etc/passwd" "/model/" = false) := by
  refine ⟨?_, ?_, ?_⟩
  · simp [osPathJoin, h]
  · decide
  · decide

/-- C9 fails as stated: over the unchanged colliding-keys bucket (keys a/b
and /model/a/b share the destination path /model/a/b), the first run records
one success and one failure while the second run, started on the filesystem
the first run left behind, records two successes and no failure, so the two
manifests differ beyond the timestamp field. -/
theorem c9_cex_colliding_keys :
    manifestCounts (downloadModel collidingDownloader 1 1 emptyFS constJsonSize)
      = some (1, 1) ∧
    manifestCounts (secondRun collidingDownloader 1 1 2 emptyFS constJsonSize)
      = some (2, 0) :=
  ⟨rfl, rfl⟩

/-- C9 amended: two successive runs of download_model over an unchanged
remote bucket yield manifests identical in every field except download_time,
provided the listed objects have pairwise distinct local destination paths
and none of those paths is the manifest path itself (without that proviso
the counterexample applies). -/
theorem c9_idempotent_manifests (d : ModelDownloader) (c : S3Client)
    (fuel t1 t2 : Nat) (fs0 : FS) (js : Metadata → Nat)
    (objs : List S3Object) (o1 o2 : SyncOutcome)
    (hs3 : d.s3 = some c)
    (hlist : listLoop c fuel none [] = some objs)
    (hne : objs.isEmpty = false)
    (hnd : (objs.map (objPath d.model_path)).Nodup)
    (hman : ∀ o ∈ objs,
      objPath d.model_path o ≠ osPathJoin d.model_path manifestName)
    (h1 : downloadModel d fuel t1 fs0 js = some (Except.ok o1))
    (h2 : downloadModel d fuel t2 o1.fs js = some (Except.ok o2)) :
    ∃ m1 m2, o1.manifest = some m1 ∧ o2.manifest = some m2 ∧
      m1.download_time = t1 ∧ m2.download_time = t2 ∧
      m1.bucket_name = m2.bucket_name ∧
      m1.endpoint_url = m2.endpoint_url ∧
      m1.total_files = m2.total_files ∧
      m1.successful_downloads = m2.successful_downloads ∧
      m1.failed_downloads = m2.failed_downloads := by
  have e1 := downloadModel_some d c fuel t1 fs0 js objs hs3 hlist hne
  rw [h1] at e1
  have ho1 : o1 = syncOutcome d c t1 fs0 js objs := by simpa using e1
  subst ho1
  have e2 := downloadModel_some d c fuel t2
    (syncOutcome d c t1 fs0 js objs).fs js objs hs3 hlist hne
  rw [h2] at e2
  have ho2 : o2 = syncOutcome d c t2 (syncOutcome d c t1 fs0 js objs).fs js objs := by
    simpa using e2
  subst ho2
  have hpoint : ∀ o ∈ objs,
      objFails c (syncOutcome d c t1 fs0 js objs).fs d.model_path o
        = objFails c fs0 d.model_path o := by
    intro o hm
    apply objFails_postFS
    have hfs1 : (syncOutcome d c t1 fs0 js objs).fs (objPath d.model_path o)
        = (objs.foldl (processObj c d.model_path) ⟨fs0, 0, 0, []⟩).fs
            (objPath d.model_path o) := by
      show fsUpdate
          (objs.foldl (processObj c d.model_path) ⟨fs0, 0, 0, []⟩).fs
          (osPathJoin d.model_path manifestName) _ (objPath d.model_path o)
        = _
      exact fsUpdate_other _ _ _ _ (hman o hm)
    rw [hfs1]
    have hmem := foldl_fs_mem c d.model_path objs ⟨fs0, 0, 0, []⟩ o hnd hm
    exact hmem
  have hfailed :
      (objs.foldl (processObj c d.model_path)
        ⟨(syncOutcome d c t1 fs0 js objs).fs, 0, 0, []⟩).failed_count
        = (objs.foldl (processObj c d.model_path) ⟨fs0, 0, 0, []⟩).failed_count := by
    have hA := foldl_failed c d.model_path objs
      ⟨(syncOutcome d c t1 fs0 js objs).fs, 0, 0, []⟩ hnd
    have hB := foldl_failed c d.model_path objs ⟨fs0, 0, 0, []⟩ hnd
    have hF := filterCongrMem
      (fun o => objFails c (syncOutcome d c t1 fs0 js objs).fs d.model_path o)
      (fun o => objFails c fs0 d.model_path o) objs hpoint
    rw [hA, hB, hF]
  have hc1 : (objs.foldl (processObj c d.model_path) ⟨fs0, 0, 0, []⟩).success_count
      + (objs.foldl (processObj c d.model_path) ⟨fs0, 0, 0, []⟩).failed_count
      = 0 + 0 + objs.length := foldl_counts c d.model_path objs ⟨fs0, 0, 0, []⟩
  have hc2 : (objs.foldl (processObj c d.model_path)
        ⟨(syncOutcome d c t1 fs0 js objs).fs, 0, 0, []⟩).success_count
      + (objs.foldl (processObj c d.model_path)
        ⟨(syncOutcome d c t1 fs0 js objs).fs, 0, 0, []⟩).failed_count
      = 0 + 0 + objs.length :=
    foldl_counts c d.model_path objs ⟨(syncOutcome d c t1 fs0 js objs).fs, 0, 0, []⟩
  refine ⟨mkMeta d t1 objs (objs.foldl (processObj c d.model_path) ⟨fs0, 0, 0, []⟩),
    mkMeta d t2 objs (objs.foldl (processObj c d.model_path)
      ⟨(syncOutcome d c t1 fs0 js objs).fs, 0, 0, []⟩),
    rfl, rfl, rfl, rfl, rfl, rfl, rfl, ?_, ?_⟩
  · show (objs.foldl (processObj c d.model_path) ⟨fs0, 0, 0, []⟩).success_count
      = (objs.foldl (processObj c d.model_path)
          ⟨(syncOutcome d c t1 fs0 js objs).fs, 0, 0, []⟩).success_count
    omega
  · show (objs.foldl (processObj c d.model_path) ⟨fs0, 0, 0, []⟩).failed_count
      = (objs.foldl (processObj c d.model_path)
          ⟨(syncOutcome d c t1 fs0 js objs).fs, 0, 0, []⟩).failed_count
    omega

/- Witnesses: each applies its theorem at a concrete input. -/

/-- Concrete instance of the amended C2 statement at the single-object
bucket. -/
theorem c2_manifest_totals_witness :
    ∃ meta, goodRunOne.manifest = some meta ∧
      meta.total_files = [({ key := "a", size := 1 } : S3Object)].length ∧
      meta.successful_downloads + meta.failed_downloads = meta.total_files :=
  c2_manifest_totals goodDownloader goodClient 1 5 emptyFS constJsonSize
    [{ key := "a", size := 1 }] goodRunOne rfl rfl rfl rfl

/-- Concrete instance of C3 at the single-object bucket. -/
theorem c3_success_iff_no_failures_witness :
    ∃ meta, goodRunOne.manifest = some meta ∧
      meta.successful_downloads + meta.failed_downloads
        = [({ key := "a", size := 1 } : S3Object)].length ∧
      (goodRunOne.retval = true ↔ meta.failed_downloads = 0) :=
  c3_success_iff_no_failures goodDownloader goodClient 1 5 emptyFS constJsonSize
    [{ key := "a", size := 1 }] goodRunOne rfl rfl rfl rfl

/-- Concrete instance of C4 at the empty bucket. -/
theorem c4_empty_listing_fails_without_downloads_witness :
    downloadModel emptyBucketDownloader 1 0 emptyFS constJsonSize
      = some (Except.ok
          { retval := false, fs := emptyFS, manifest := none, attempts := [] }) :=
  c4_empty_listing_fails_without_downloads emptyBucketDownloader
    emptyBucketClient 1 0 emptyFS constJsonSize rfl rfl

/-- Concrete instance of C5: a matching local file is skipped and counted
successful; an absent local file triggers a download that overwrites the
destination. -/
theorem c5_skip_or_download_witness :
    processObj goodClient "/model" ⟨fsUpdate emptyFS "/model/a" 1, 0, 0, []⟩
        { key := "a", size := 1 }
      = { fs := fsUpdate emptyFS "/model/a" 1, success_count := 1,
          failed_count := 0, attempts := [] } ∧
    processObj goodClient "/model" ⟨emptyFS, 0, 0, []⟩ { key := "a", size := 1 }
      = { fs := fsUpdate emptyFS "/model/a" 1, success_count := 1,
          failed_count := 0, attempts := ["a"] } := by
  constructor
  · exact (c5_skip_or_download goodClient "/model"
      ⟨fsUpdate emptyFS "/model/a" 1, 0, 0, []⟩ { key := "a", size := 1 }).1 rfl
  · exact ((c5_skip_or_download goodClient "/model"
      ⟨emptyFS, 0, 0, []⟩ { key := "a", size := 1 }).2 (by simp [emptyFS])).2.1 rfl

/-- Concrete instance of C6: a two-page trace is accumulated in order, and a
first-request ClientError yields the empty list without an exception. -/
theorem c6_pagination_and_error_to_empty_witness :
    listBucketContents (some twoPageClient) 2
      = some (Except.ok
          (([twoPageFirst, twoPageSecond].map (fun p => p.contents)).flatten)) ∧
    listBucketContents (some failingListClient) 1 = some (Except.ok []) := by
  constructor
  · exact c6_pagination_and_error_to_empty.1 twoPageClient
      [twoPageFirst, twoPageSecond] 2
      (PageChain.step none twoPageFirst [twoPageSecond] rfl rfl
        (PageChain.last (some "t1") twoPageSecond rfl rfl))
      (by decide)
  · exact c6_pagination_and_error_to_empty.2 failingListClient 0 1
      (ErrChain.here none rfl) (by decide)

/-- Concrete instance of C7 at the job mapping with input x. -/
theorem c7_handler_success_witness :
    handler (mkConfig (fun _ => none)) [("input", "x")]
      = [("status", "success"),
         ("model_used", (mkConfig (fun _ => none)).MODEL_PATH),
         ("result", "Processed input: " ++ "x")] ∧
    (mkConfig (fun _ => none)).MODEL_PATH = "/model" :=
  c7_handler_success (fun _ => none) [("input", "x")] "x" rfl

/-- Concrete instance of C8 at a job mapping without an input entry. -/
theorem c8_handler_missing_input_witness :
    handler (mkConfig (fun _ => none)) [("foo", "1")]
      = [("status", "error"), ("message", "\x27input\x27")] ∧
    ("\x27input\x27" : String) ≠ "" :=
  c8_handler_missing_input (mkConfig (fun _ => none)) [("foo", "1")] rfl

/-- Concrete instance of the amended C9 statement: two runs over the
single-object bucket with distinct destination paths give manifests equal in
everything but the timestamp. -/
theorem c9_idempotent_manifests_witness :
    ∃ m1 m2, goodRunOne.manifest = some m1 ∧ goodRunTwo.manifest = some m2 ∧
      m1.download_time = 5 ∧ m2.download_time = 9 ∧
      m1.bucket_name = m2.bucket_name ∧
      m1.endpoint_url = m2.endpoint_url ∧
      m1.total_files = m2.total_files ∧
      m1.successful_downloads = m2.successful_downloads ∧
      m1.failed_downloads = m2.failed_downloads :=
  c9_idempotent_manifests goodDownloader goodClient 1 5 9 emptyFS constJsonSize
    [{ key := "a", size := 1 }] goodRunOne goodRunTwo rfl rfl rfl
    (by decide) (by decide) rfl rfl

/-- Concrete instance of the amended C10 statement at the key /a. -/
theorem c10_join_absolute_key_witness :
    osPathJoin "/model" "/a" = "/a" ∧
    (osPathJoin "/model" "/etc/passwd" = "/etc/passwd" ∧
     strStartsWith "/etc/passwd" "/model/" = false) :=
  c10_join_absolute_key "/a" (by decide)

end WorkerServer
